import Mathlib

set_option maxRecDepth 16384
set_option maxHeartbeats 1600000

/-!
Verification of the 6502 emulator core of marianol/6502Emu.

The development shallowly embeds the two CPU cores of the repository:

* `fake6502_old.c` — the complete simplified core (global `cpu` state,
  `irq_pending`/`nmi_pending` latches, memory callbacks).  All of
  `cpu_reset`, `cpu_step`, the snapshot functions and the interrupt
  trigger functions are translated one-to-one below.
* `fake6502.c` — the wrapper around the MyLittle6502 core.  Its
  `cpu_reset`, `cpu_get_state` and `cpu_set_state` only call trivial
  per-register accessors of the included core, so they are embedded as
  record operations (`cpu_reset_new`, `cpu_get_state_new`,
  `cpu_set_state_new`); the `uint32_t` accessor prototypes declared in
  `fake6502.c` make the `cycles` field truncate modulo 2^32.

Machine integers are `Nat` with explicit `% 2^w` where C performs a
conversion.  The memory bus is a function `Nat → Nat`; `read6502`
truncates the address to 16 bits (the `uint16_t` parameter) and the
value to 8 bits (the `uint8_t` return type of the callback), and
`write6502` produces the updated bus.
-/

namespace Fake6502

/-- Status flag masks, from fake6502.h. -/
abbrev FLAG_CARRY : Nat := 0x01

/-- Zero flag mask (bit 1). -/
abbrev FLAG_ZERO : Nat := 0x02

/-- InterruptDisable flag mask (bit 2). -/
abbrev FLAG_INTERRUPT : Nat := 0x04

/-- Decimal flag mask (bit 3). -/
abbrev FLAG_DECIMAL : Nat := 0x08

/-- Break flag mask (bit 4). -/
abbrev FLAG_BREAK : Nat := 0x10

/-- Constant (always-one) flag mask (bit 5). -/
abbrev FLAG_CONSTANT : Nat := 0x20

/-- Overflow flag mask (bit 6). -/
abbrev FLAG_OVERFLOW : Nat := 0x40

/-- Sign/Negative flag mask (bit 7). -/
abbrev FLAG_SIGN : Nat := 0x80

/-- The `cpu_state_t` structure of fake6502.h: pc is `uint16_t`, sp, a,
x, y and status are `uint8_t`, cycles is `uint64_t`. -/
structure CpuState where
  pc : Nat
  sp : Nat
  a : Nat
  x : Nat
  y : Nat
  status : Nat
  cycles : Nat
deriving Repr, DecidableEq

/-- The whole mutable state of fake6502_old.c: the `cpu` global, the two
interrupt latches, and the memory bus (the attached callbacks, or the
default bus; either way a function from address to byte). -/
structure Core where
  cpu : CpuState
  irq_pending : Bool
  nmi_pending : Bool
  mem : Nat → Nat

/-- `read6502`: the bus read.  The `uint16_t` parameter truncates the
address and the `uint8_t` return type truncates the value. -/
def read6502 (mem : Nat → Nat) (address : Nat) : Nat :=
  mem (address % 65536) % 256

/-- `write6502`: the bus write, returning the updated bus.  The
`uint16_t`/`uint8_t` parameters truncate address and value. -/
def write6502 (mem : Nat → Nat) (address value : Nat) : Nat → Nat :=
  fun a => if a = address % 65536 then value % 256 else mem a

/-- `read6502_word`: little-endian 16-bit read,
`read6502(address) | (read6502(address + 1) << 8)`. -/
def read6502_word (mem : Nat → Nat) (address : Nat) : Nat :=
  read6502 mem address ||| (read6502 mem (address + 1) <<< 8)

/-- `push6502`: write `value` at `0x0100 + sp`, then decrement the
8-bit stack pointer (wrapping). -/
def push6502 (c : Core) (value : Nat) : Core :=
  { c with
    mem := write6502 c.mem (0x0100 + c.cpu.sp) value
    cpu := { c.cpu with sp := (c.cpu.sp + 255) % 256 } }

/-- `pull6502`: increment the 8-bit stack pointer (wrapping), then read
at `0x0100 + sp`.  Returns the new core and the pulled byte. -/
def pull6502 (c : Core) : Core × Nat :=
  ({ c with cpu := { c.cpu with sp := (c.cpu.sp + 1) % 256 } },
   read6502 c.mem (0x0100 + (c.cpu.sp + 1) % 256))

/-- `cpu_reset` of fake6502_old.c: zero the state, then sp := 0xFF,
status := FLAG_CONSTANT | FLAG_INTERRUPT, pc := word at 0xFFFC,
cycles := 0, and clear both latches. -/
def cpu_reset (mem : Nat → Nat) : Core :=
  { cpu := { pc := read6502_word mem 0xFFFC, sp := 0xFF, a := 0, x := 0,
             y := 0, status := FLAG_CONSTANT ||| FLAG_INTERRUPT, cycles := 0 }
    irq_pending := false
    nmi_pending := false
    mem := mem }

/-- `cpu_step` of fake6502_old.c: service NMI if pending, else IRQ if
pending and InterruptDisable clear, else fetch and execute one
instruction.  Returns the new core and the cycle count the C function
returns.  The `cycles` accumulator is a `uint64_t`. -/
def cpu_step (c : Core) : Core × Nat :=
  if c.nmi_pending = true then
    let c1 := push6502 c ((c.cpu.pc >>> 8) &&& 0xFF)
    let c2 := push6502 c1 (c.cpu.pc &&& 0xFF)
    let c3 := push6502 c2 c.cpu.status
    let c4 := { c3 with cpu := { c3.cpu with
                  status := c3.cpu.status ||| FLAG_INTERRUPT } }
    let c5 := { c4 with
                cpu := { c4.cpu with pc := read6502_word c4.mem 0xFFFA }
                nmi_pending := false }
    ({ c5 with cpu := { c5.cpu with
        cycles := (c5.cpu.cycles + 7) % 18446744073709551616 } }, 7)
  else if c.irq_pending = true ∧ c.cpu.status &&& FLAG_INTERRUPT = 0 then
    let c1 := push6502 c ((c.cpu.pc >>> 8) &&& 0xFF)
    let c2 := push6502 c1 (c.cpu.pc &&& 0xFF)
    let c3 := push6502 c2 c.cpu.status
    let c4 := { c3 with cpu := { c3.cpu with
                  status := c3.cpu.status ||| FLAG_INTERRUPT } }
    let c5 := { c4 with
                cpu := { c4.cpu with pc := read6502_word c4.mem 0xFFFE }
                irq_pending := false }
    ({ c5 with cpu := { c5.cpu with
        cycles := (c5.cpu.cycles + 7) % 18446744073709551616 } }, 7)
  else
    let opcode := read6502 c.mem c.cpu.pc
    let c0 := { c with cpu := { c.cpu with pc := (c.cpu.pc + 1) % 65536 } }
    let r : Core × Nat :=
      if opcode = 0x00 then
        -- BRK: a second pc increment, push pc, push status | FLAG_BREAK
        let ca := { c0 with cpu := { c0.cpu with
                      pc := (c0.cpu.pc + 1) % 65536 } }
        let cb := push6502 ca ((ca.cpu.pc >>> 8) &&& 0xFF)
        let cc := push6502 cb (ca.cpu.pc &&& 0xFF)
        let cd := push6502 cc (cc.cpu.status ||| FLAG_BREAK)
        let ce := { cd with cpu := { cd.cpu with
                      status := cd.cpu.status ||| FLAG_INTERRUPT } }
        ({ ce with cpu := { ce.cpu with
            pc := read6502_word ce.mem 0xFFFE } }, 7)
      else if opcode = 0x4C then
        -- JMP absolute
        ({ c0 with cpu := { c0.cpu with
            pc := read6502_word c0.mem c0.cpu.pc } }, 3)
      else if opcode = 0x6C then
        -- JMP indirect, with the original 6502 page-boundary bug
        let addr := read6502_word c0.mem c0.cpu.pc
        if addr &&& 0xFF = 0xFF then
          ({ c0 with cpu := { c0.cpu with
              pc := read6502 c0.mem addr |||
                    (read6502 c0.mem (addr &&& 0xFF00) <<< 8) } }, 5)
        else
          ({ c0 with cpu := { c0.cpu with
              pc := read6502_word c0.mem addr } }, 5)
      else if opcode = 0xA9 then
        -- LDA immediate; `~(FLAG_ZERO | FLAG_SIGN)` on a uint8_t is 0x7D
        let a := read6502 c0.mem c0.cpu.pc
        let c1 :=
          { c0 with cpu := { c0.cpu with a := a, pc := (c0.cpu.pc + 1) % 65536 } }
        let s1 := c1.cpu.status &&& 0x7D
        let s2 := if a = 0 then s1 ||| FLAG_ZERO else s1
        let s3 := if a &&& 0x80 ≠ 0 then s2 ||| FLAG_SIGN else s2
        ({ c1 with cpu := { c1.cpu with status := s3 } }, 2)
      else if opcode = 0xEA then
        -- NOP
        (c0, 2)
      else if opcode = 0x40 then
        -- RTI: pull status, then pc low, then pc high
        let p1 := pull6502 c0
        let p2 := pull6502 p1.1
        let p3 := pull6502 p2.1
        ({ p3.1 with
           cpu := { p3.1.cpu with status := p1.2, pc := p2.2 ||| (p3.2 <<< 8) } },
         6)
      else
        -- unknown opcode: just advance pc (already incremented)
        (c0, 2)
    ({ r.1 with cpu := { r.1.cpu with
        cycles := (r.1.cpu.cycles + r.2) % 18446744073709551616 } }, r.2)

/-- `cpu_get_state` of fake6502_old.c: a struct copy of the cpu state. -/
def cpu_get_state (c : Core) : CpuState := c.cpu

/-- `cpu_set_state` of fake6502_old.c: a struct copy into the cpu state. -/
def cpu_set_state (c : Core) (state : CpuState) : Core :=
  { c with cpu := state }

/-- `cpu_trigger_irq`: set the IRQ latch. -/
def cpu_trigger_irq (c : Core) : Core := { c with irq_pending := true }

/-- `cpu_trigger_nmi`: set the NMI latch. -/
def cpu_trigger_nmi (c : Core) : Core := { c with nmi_pending := true }

/-- `cpu_clear_irq`: clear the IRQ latch. -/
def cpu_clear_irq (c : Core) : Core := { c with irq_pending := false }

/-- `cpu_is_irq_pending`. -/
def cpu_is_irq_pending (c : Core) : Bool := c.irq_pending

/-- `cpu_is_nmi_pending`. -/
def cpu_is_nmi_pending (c : Core) : Bool := c.nmi_pending

/-- `cpu_reset` of fake6502.c (the wrapper over the MyLittle6502 core):
pc := 0 with no bus read, sp := 0xFD, a = x = y = 0,
status := 0x20 | 0x04, cycles := 0.  The `set_*_6502` accessor bodies
live in the absent `fake6502_improved.h`; modelled from the spec:
per-register setters that store the given value into the core's
register file. -/
def cpu_reset_new : CpuState :=
  { pc := 0x0000, sp := 0xFD, a := 0, x := 0, y := 0,
    status := 0x20 ||| 0x04, cycles := 0 }

/-- `cpu_set_state_new`: `cpu_set_state` of fake6502.c.  It passes each
field of `cpu_state_t` to the matching `set_*_6502` accessor declared in
fake6502.c; the `uint64_t` field `cycles` is converted to the
`uint32_t` parameter of `set_cycles_6502`, truncating modulo 2^32 — all
other parameter types match the field types exactly.  The accessor
bodies live in the absent `fake6502_improved.h`; modelled from the
spec: plain per-register stores. -/
def cpu_set_state_new (state : CpuState) : CpuState :=
  { state with cycles := state.cycles % 4294967296 }

/-- `cpu_get_state_new`: `cpu_get_state` of fake6502.c, reading each
register back through the `get_*_6502` accessors (modelled from the
spec: plain per-register loads, the absent `fake6502_improved.h`). -/
def cpu_get_state_new (core : CpuState) : CpuState := core

/-- Well-formedness: the field ranges the C types `uint16_t`/`uint8_t`
guarantee for every reachable `cpu` value. -/
abbrev Core.Wf (c : Core) : Prop :=
  c.cpu.pc < 65536 ∧ c.cpu.sp < 256 ∧ c.cpu.a < 256 ∧ c.cpu.x < 256 ∧
  c.cpu.y < 256 ∧ c.cpu.status < 256

/-- The condition under which `cpu_step` takes the instruction path
(no NMI pending, and no serviceable IRQ). -/
abbrev stepsInstruction (c : Core) : Prop :=
  c.nmi_pending = false ∧
  ¬(c.irq_pending = true ∧ c.cpu.status &&& FLAG_INTERRUPT = 0)

/-- A bus returning 0x12 everywhere, for concrete counterexamples. -/
def bus12 : Nat → Nat := fun _ => 0x12

/-- A bus with the NMI vector 0x8000 and the IRQ vector 0x9000. -/
def vecBus : Nat → Nat := fun a =>
  if a = 0xFFFA then 0x00 else if a = 0xFFFB then 0x80
  else if a = 0xFFFE then 0x00 else if a = 0xFFFF then 0x90 else 0

/-- A core with both latches set and the Break flag set in status. -/
def nmiCore0 : Core :=
  { cpu := { pc := 0x1234, sp := 0xFF, a := 1, x := 2, y := 3,
             status := 0x34, cycles := 5 }
    irq_pending := true
    nmi_pending := true
    mem := vecBus }

/-- A core with only the IRQ latch set and InterruptDisable clear. -/
def irqCore0 : Core :=
  { cpu := { pc := 0x1234, sp := 0xFF, a := 1, x := 2, y := 3,
             status := 0x20, cycles := 5 }
    irq_pending := true
    nmi_pending := false
    mem := vecBus }

/-- A bus holding `LDA #$42` at 0x0200 (the end-to-end scenario). -/
def ldaBus : Nat → Nat := fun a =>
  if a = 0x0200 then 0xA9 else if a = 0x0201 then 0x42 else 0

/-- A core with the IRQ latch set but InterruptDisable set (masked). -/
def maskedIrqCore : Core :=
  { cpu := { pc := 0x0200, sp := 0xFD, a := 0, x := 0, y := 0,
             status := 0x24, cycles := 0 }
    irq_pending := true
    nmi_pending := false
    mem := ldaBus }

/-- The end-to-end scenario core: pc = 0x0200 over `ldaBus`. -/
def ldaCore0 : Core :=
  { cpu := { pc := 0x0200, sp := 0xFD, a := 0, x := 0, y := 0,
             status := 0x24, cycles := 0 }
    irq_pending := false
    nmi_pending := false
    mem := ldaBus }

/-- A core with an all-zero status register over `ldaBus`. -/
def ldaZeroStatusCore : Core :=
  { cpu := { pc := 0x0200, sp := 0xFD, a := 0, x := 0, y := 0,
             status := 0x00, cycles := 0 }
    irq_pending := false
    nmi_pending := false
    mem := ldaBus }

/-- A bus with `JMP ($02FF)` at 0, 0x34 at 0x02FF and 0x12 at 0x0200. -/
def jmpIndBus : Nat → Nat := fun a =>
  if a = 0 then 0x6C else if a = 1 then 0xFF else if a = 2 then 0x02
  else if a = 0x02FF then 0x34 else if a = 0x0200 then 0x12
  else if a = 0x0300 then 0x77 else 0

/-- A core about to execute `JMP ($02FF)` (page-wrap case). -/
def jmpIndCore : Core :=
  { cpu := { pc := 0, sp := 0xFD, a := 0, x := 0, y := 0,
             status := 0x24, cycles := 0 }
    irq_pending := false
    nmi_pending := false
    mem := jmpIndBus }

/-- A bus with `JMP ($0280)` at 0, 0x34 at 0x0280 and 0x12 at 0x0281. -/
def jmpIndBus2 : Nat → Nat := fun a =>
  if a = 0 then 0x6C else if a = 1 then 0x80 else if a = 2 then 0x02
  else if a = 0x0280 then 0x34 else if a = 0x0281 then 0x12 else 0

/-- A core about to execute `JMP ($0280)` (no page wrap). -/
def jmpIndCore2 : Core :=
  { cpu := { pc := 0, sp := 0xFD, a := 0, x := 0, y := 0,
             status := 0x24, cycles := 0 }
    irq_pending := false
    nmi_pending := false
    mem := jmpIndBus2 }

/-- A core about to fetch opcode 0xAD (`LDA absolute`, unimplemented). -/
def absLdaCore : Core :=
  { cpu := { pc := 0, sp := 0xFD, a := 0, x := 0, y := 0,
             status := 0x24, cycles := 0 }
    irq_pending := false
    nmi_pending := false
    mem := fun a => if a = 0 then 0xAD else 0 }

/-- A core about to execute BRK (opcode 0x00) over an all-zero bus. -/
def brkCore : Core :=
  { cpu := { pc := 0x1000, sp := 0xFF, a := 0, x := 0, y := 0,
             status := 0x24, cycles := 0 }
    irq_pending := false
    nmi_pending := false
    mem := fun _ => 0 }

/-- A core about to execute RTI (opcode 0x40). -/
def rtiCore : Core :=
  { cpu := { pc := 0, sp := 0xFD, a := 0, x := 0, y := 0,
             status := 0x24, cycles := 0 }
    irq_pending := false
    nmi_pending := false
    mem := fun a => if a = 0 then 0x40 else 0 }

/-- A core about to execute JMP absolute (opcode 0x4C). -/
def jmpAbsCore : Core :=
  { cpu := { pc := 0, sp := 0xFD, a := 0, x := 0, y := 0,
             status := 0x24, cycles := 0 }
    irq_pending := false
    nmi_pending := false
    mem := fun a => if a = 0 then 0x4C else 0 }

/-- A core about to fetch opcode 0xBD (`LDA absolute,X`,
unimplemented). -/
def absXCore : Core :=
  { cpu := { pc := 0, sp := 0xFD, a := 0, x := 0, y := 0,
             status := 0x24, cycles := 0 }
    irq_pending := false
    nmi_pending := false
    mem := fun a => if a = 0 then 0xBD else 0 }

/-- A core about to fetch the unimplemented opcode 0x02. -/
def unkCore : Core :=
  { cpu := { pc := 0x0300, sp := 0xFD, a := 9, x := 8, y := 7,
             status := 0xA5, cycles := 11 }
    irq_pending := false
    nmi_pending := false
    mem := fun a => if a = 0x0300 then 0x02 else 0 }

/-- A state with a flag pattern unreachable by execution (bit5 clear),
for the snapshot round-trip claim. -/
def oddState : CpuState :=
  { pc := 0xBEEF, sp := 0x00, a := 0xFF, x := 0x01, y := 0x02,
    status := 0x00, cycles := 123 }

/-! ## Helper lemmas -/

theorem read6502_lt (mem : Nat → Nat) (a : Nat) : read6502 mem a < 256 :=
  Nat.mod_lt _ (by decide)

theorem lor_shift_eq_add (lo hi : Nat) (h : lo < 256) :
    lo ||| (hi <<< 8) = 256 * hi + lo := by
  rw [Nat.shiftLeft_eq, Nat.mul_comm hi (2 ^ 8), Nat.or_comm,
      ← Nat.mul_add_lt_is_or h hi]

theorem read6502_word_eq (mem : Nat → Nat) (a : Nat) :
    read6502_word mem a = 256 * read6502 mem (a + 1) + read6502 mem a := by
  unfold read6502_word
  exact lor_shift_eq_add _ _ (read6502_lt _ _)

theorem read6502_word_lt (mem : Nat → Nat) (a : Nat) :
    read6502_word mem a < 65536 := by
  rw [read6502_word_eq]
  have h1 := read6502_lt mem (a + 1)
  have h2 := read6502_lt mem a
  omega

theorem read_write_ne (mem : Nat → Nat) (a v y : Nat)
    (h : y % 65536 ≠ a % 65536) :
    read6502 (write6502 mem a v) y = read6502 mem y := by
  unfold read6502 write6502
  rw [if_neg h]

theorem read_word_write_ne (mem : Nat → Nat) (a v y : Nat)
    (h1 : y % 65536 ≠ a % 65536) (h2 : (y + 1) % 65536 ≠ a % 65536) :
    read6502_word (write6502 mem a v) y = read6502_word mem y := by
  unfold read6502_word
  rw [read_write_ne mem a v y h1, read_write_ne mem a v (y + 1) h2]

theorem land_or_right (x b m : Nat) (h : b &&& m = 0) :
    (x ||| b) &&& m = x &&& m := by
  rw [Nat.and_distrib_right, h, Nat.or_zero]

theorem land_land (x m : Nat) : (x &&& m) &&& m = x &&& m := by
  rw [Nat.and_assoc, Nat.and_self]

theorem and_128_testBit (x : Nat) : x &&& 128 ≠ 0 ↔ x.testBit 7 = true := by
  rw [show (128 : Nat) = 2 ^ 7 from rfl, Nat.and_two_pow]
  cases h : x.testBit 7 <;> simp

theorem and_255 (x : Nat) : x &&& 255 = x % 256 :=
  Nat.and_pow_two_sub_one_eq_mod x 8

theorem write_at_ne (mem : Nat → Nat) (a v y : Nat) (h : y ≠ a % 65536) :
    write6502 mem a v y = mem y := if_neg h

theorem write_at_eq (mem : Nat → Nat) (a v y : Nat) (h : y = a % 65536) :
    write6502 mem a v y = v % 256 := if_pos h

theorem nmi_service_facts (c : Core) (hsp : c.cpu.sp < 256)
    (hpc : c.cpu.pc < 65536) (hst : c.cpu.status < 256)
    (hn : c.nmi_pending = true) :
    (cpu_step c).2 = 7 ∧
    (cpu_step c).1.mem (0x0100 + c.cpu.sp) = c.cpu.pc / 256 ∧
    (cpu_step c).1.mem (0x0100 + (c.cpu.sp + 255) % 256) = c.cpu.pc % 256 ∧
    (cpu_step c).1.mem (0x0100 + (c.cpu.sp + 254) % 256) = c.cpu.status ∧
    (∀ a : Nat, a ≠ 0x0100 + c.cpu.sp → a ≠ 0x0100 + (c.cpu.sp + 255) % 256 →
      a ≠ 0x0100 + (c.cpu.sp + 254) % 256 → (cpu_step c).1.mem a = c.mem a) ∧
    (cpu_step c).1.cpu.sp = (c.cpu.sp + 253) % 256 ∧
    (cpu_step c).1.cpu.status = c.cpu.status ||| FLAG_INTERRUPT ∧
    (cpu_step c).1.cpu.pc = read6502_word c.mem 0xFFFA ∧
    (cpu_step c).1.nmi_pending = false ∧
    (cpu_step c).1.irq_pending = c.irq_pending ∧
    (cpu_step c).1.cpu.a = c.cpu.a ∧ (cpu_step c).1.cpu.x = c.cpu.x ∧
    (cpu_step c).1.cpu.y = c.cpu.y ∧
    (cpu_step c).1.cpu.cycles = (c.cpu.cycles + 7) % 18446744073709551616 := by
  unfold cpu_step
  rw [if_pos hn]
  simp only [push6502]
  refine ⟨trivial, ?_, ?_, ?_, ?_, by omega, trivial, ?_, trivial, trivial,
          trivial, trivial, trivial, trivial⟩
  · rw [write_at_ne _ _ _ _ (by omega), write_at_ne _ _ _ _ (by omega),
        write_at_eq _ _ _ _ (by omega), and_255, Nat.shiftRight_eq_div_pow]
    have h8 : (2 : Nat) ^ 8 = 256 := by norm_num
    rw [h8]
    omega
  · rw [write_at_ne _ _ _ _ (by omega), write_at_eq _ _ _ _ (by omega), and_255]
    omega
  · rw [write_at_eq _ _ _ _ (by omega)]
    omega
  · intro a h1 h2 h3
    rw [write_at_ne _ _ _ _ (by omega), write_at_ne _ _ _ _ (by omega),
        write_at_ne _ _ _ _ (by omega)]
  · rw [read_word_write_ne _ _ _ _ (by omega) (by omega),
        read_word_write_ne _ _ _ _ (by omega) (by omega),
        read_word_write_ne _ _ _ _ (by omega) (by omega)]

theorem irq_service_facts (c : Core) (hsp : c.cpu.sp < 256)
    (hpc : c.cpu.pc < 65536) (hst : c.cpu.status < 256)
    (hn : c.nmi_pending = false) (hi : c.irq_pending = true)
    (he : c.cpu.status &&& FLAG_INTERRUPT = 0) :
    (cpu_step c).2 = 7 ∧
    (cpu_step c).1.mem (0x0100 + c.cpu.sp) = c.cpu.pc / 256 ∧
    (cpu_step c).1.mem (0x0100 + (c.cpu.sp + 255) % 256) = c.cpu.pc % 256 ∧
    (cpu_step c).1.mem (0x0100 + (c.cpu.sp + 254) % 256) = c.cpu.status ∧
    (∀ a : Nat, a ≠ 0x0100 + c.cpu.sp → a ≠ 0x0100 + (c.cpu.sp + 255) % 256 →
      a ≠ 0x0100 + (c.cpu.sp + 254) % 256 → (cpu_step c).1.mem a = c.mem a) ∧
    (cpu_step c).1.cpu.sp = (c.cpu.sp + 253) % 256 ∧
    (cpu_step c).1.cpu.status = c.cpu.status ||| FLAG_INTERRUPT ∧
    (cpu_step c).1.cpu.pc = read6502_word c.mem 0xFFFE ∧
    (cpu_step c).1.irq_pending = false ∧
    (cpu_step c).1.nmi_pending = c.nmi_pending ∧
    (cpu_step c).1.cpu.a = c.cpu.a ∧ (cpu_step c).1.cpu.x = c.cpu.x ∧
    (cpu_step c).1.cpu.y = c.cpu.y ∧
    (cpu_step c).1.cpu.cycles = (c.cpu.cycles + 7) % 18446744073709551616 := by
  unfold cpu_step
  rw [if_neg (by simp [hn]), if_pos ⟨hi, he⟩]
  simp only [push6502]
  refine ⟨trivial, ?_, ?_, ?_, ?_, by omega, trivial, ?_, trivial, trivial,
          trivial, trivial, trivial, trivial⟩
  · rw [write_at_ne _ _ _ _ (by omega), write_at_ne _ _ _ _ (by omega),
        write_at_eq _ _ _ _ (by omega), and_255, Nat.shiftRight_eq_div_pow]
    have h8 : (2 : Nat) ^ 8 = 256 := by norm_num
    rw [h8]
    omega
  · rw [write_at_ne _ _ _ _ (by omega), write_at_eq _ _ _ _ (by omega), and_255]
    omega
  · rw [write_at_eq _ _ _ _ (by omega)]
    omega
  · intro a h1 h2 h3
    rw [write_at_ne _ _ _ _ (by omega), write_at_ne _ _ _ _ (by omega),
        write_at_ne _ _ _ _ (by omega)]
  · rw [read_word_write_ne _ _ _ _ (by omega) (by omega),
        read_word_write_ne _ _ _ _ (by omega) (by omega),
        read_word_write_ne _ _ _ _ (by omega) (by omega)]

theorem mask_or_mask (s A B C : Nat) :
    ((s &&& A) ||| B) &&& C = (s &&& (A &&& C)) ||| (B &&& C) := by
  rw [Nat.and_distrib_right, Nat.and_assoc]

theorem land_lit_1 : (125 : Nat) &&& 2 = 0 := by decide
theorem land_lit_2 : (125 : Nat) &&& 128 = 0 := by decide
theorem land_lit_3 : (125 : Nat) &&& 125 = 125 := by decide
theorem land_lit_4 : (2 : Nat) &&& 128 = 0 := by decide
theorem land_lit_5 : (2 : Nat) &&& 125 = 0 := by decide
theorem land_lit_6 : (2 : Nat) &&& 2 = 2 := by decide
theorem land_lit_7 : (128 : Nat) &&& 2 = 0 := by decide
theorem land_lit_8 : (128 : Nat) &&& 128 = 128 := by decide
theorem land_lit_9 : (128 : Nat) &&& 125 = 0 := by decide
theorem land_lit_10 : (125 : Nat) &&& 32 = 32 := by decide
theorem land_lit_11 : (2 : Nat) &&& 32 = 0 := by decide
theorem land_lit_12 : (128 : Nat) &&& 32 = 0 := by decide

theorem and_ff00_eq (x : Nat) (h : x < 65536) : x &&& 65280 = x / 256 * 256 := by
  apply Nat.eq_of_testBit_eq
  intro j
  rw [Nat.testBit_and, show (65280 : Nat) = 255 <<< 8 from rfl,
      Nat.testBit_shiftLeft, show (255 : Nat) = 2 ^ 8 - 1 from rfl,
      Nat.testBit_two_pow_sub_one,
      show x / 256 * 256 = 2 ^ 8 * (x >>> 8) from by
        rw [Nat.shiftRight_eq_div_pow]
        norm_num [Nat.mul_comm],
      Nat.testBit_mul_pow_two, Nat.testBit_shiftRight]
  rcases Nat.lt_or_ge j 8 with hj | hj
  · simp [show ¬(8 ≤ j) from by omega]
  · rcases Nat.lt_or_ge j 16 with hj2 | hj2
    · have e : 8 + (j - 8) = j := by omega
      simp [show (8 ≤ j) from hj, show (j - 8 < 8) from by omega, e]
    · have h16 : x < 2 ^ j :=
        lt_of_lt_of_le (lt_of_lt_of_eq h (by norm_num))
          (Nat.pow_le_pow_right (by norm_num) hj2)
      simp [Nat.testBit_lt_two_pow h16, show 8 + (j - 8) = j from by omega,
            show ¬(j - 8 < 8) from by omega]

theorem instr_path_facts (c : Core) (hn : c.nmi_pending = false)
    (hni : ¬(c.irq_pending = true ∧ c.cpu.status &&& FLAG_INTERRUPT = 0)) :
    (cpu_step c).1.irq_pending = c.irq_pending ∧
    (cpu_step c).1.nmi_pending = c.nmi_pending ∧
    2 ≤ (cpu_step c).2 ∧ (cpu_step c).2 ≤ 8 := by
  unfold cpu_step
  rw [if_neg (by simp [hn]), if_neg hni]
  simp only [push6502, pull6502]
  repeat' split
  all_goals simp

theorem unknown_opcode_facts (c : Core) (hn : c.nmi_pending = false)
    (hni : ¬(c.irq_pending = true ∧ c.cpu.status &&& FLAG_INTERRUPT = 0))
    (hop : ¬read6502 c.mem c.cpu.pc ∈ [0x00, 0x4C, 0x6C, 0xA9, 0xEA, 0x40]) :
    (cpu_step c).2 = 2 ∧
    (cpu_step c).1.cpu.pc = (c.cpu.pc + 1) % 65536 ∧
    (cpu_step c).1.mem = c.mem ∧
    (cpu_step c).1.cpu.a = c.cpu.a ∧ (cpu_step c).1.cpu.x = c.cpu.x ∧
    (cpu_step c).1.cpu.y = c.cpu.y ∧ (cpu_step c).1.cpu.sp = c.cpu.sp ∧
    (cpu_step c).1.cpu.status = c.cpu.status ∧
    (cpu_step c).1.irq_pending = c.irq_pending ∧
    (cpu_step c).1.nmi_pending = c.nmi_pending ∧
    (cpu_step c).1.cpu.cycles = (c.cpu.cycles + 2) % 18446744073709551616 := by
  simp only [List.mem_cons, List.not_mem_nil, or_false, not_or] at hop
  obtain ⟨h1, h2, h3, h4, h5, h6⟩ := hop
  unfold cpu_step
  rw [if_neg (by simp [hn]), if_neg hni]
  simp only []
  rw [if_neg h1, if_neg h2, if_neg h3, if_neg h4, if_neg h5, if_neg h6]
  exact ⟨rfl, rfl, rfl, rfl, rfl, rfl, rfl, rfl, rfl, rfl, rfl⟩

theorem bit5_preserved_instr (c : Core) (hs : stepsInstruction c)
    (hne : read6502 c.mem c.cpu.pc ≠ 0x40) :
    (cpu_step c).1.cpu.status &&& FLAG_CONSTANT =
      c.cpu.status &&& FLAG_CONSTANT := by
  unfold cpu_step
  rw [if_neg (by simp [hs.1]), if_neg hs.2]
  simp only [push6502, pull6502]
  repeat' split
  all_goals
    first
      | rfl
      | exact absurd (by assumption) hne
      | exact land_or_right _ _ _ (by decide)
      | simp [mask_or_mask, FLAG_CONSTANT, Nat.and_assoc,
              land_or_right _ _ _ land_lit_12, land_lit_10, land_lit_11,
              land_lit_12]

/-! ## Claim theorems -/

/-- Claim C1, amended.  `cpu_reset` in fake6502_old.c sets sp = 0xFF
(not 0xFD), status = 0x24, cycles = 0, a = x = y = 0, clears both
latches, and loads pc from the little-endian word at bus addresses
0xFFFC/0xFFFD.  `cpu_reset` in fake6502.c sets sp = 0xFD,
status = 0x24, cycles = 0, and pc = 0x0000 with no bus read. -/
theorem cpu_reset_spec (mem : Nat → Nat) :
    (cpu_reset mem).cpu.sp = 0xFF ∧
    (cpu_reset mem).cpu.status = 0x24 ∧
    (cpu_reset mem).cpu.cycles = 0 ∧
    (cpu_reset mem).cpu.pc = 256 * read6502 mem 0xFFFD + read6502 mem 0xFFFC ∧
    (cpu_reset mem).cpu.a = 0 ∧
    (cpu_reset mem).cpu.x = 0 ∧
    (cpu_reset mem).cpu.y = 0 ∧
    (cpu_reset mem).irq_pending = false ∧
    (cpu_reset mem).nmi_pending = false ∧
    cpu_reset_new.sp = 0xFD ∧
    cpu_reset_new.status = 0x24 ∧
    cpu_reset_new.cycles = 0 ∧
    cpu_reset_new.pc = 0 := by
  refine ⟨rfl, rfl, rfl, ?_, rfl, rfl, rfl, rfl, rfl, rfl, rfl, rfl, rfl⟩
  show read6502_word mem 0xFFFC = _
  rw [read6502_word_eq]

/-- Claim C1 witness: the amended reset behaviour at the constant-0x12
bus, where the vector word is 0x1212. -/
theorem cpu_reset_spec_witness :
    (cpu_reset bus12).cpu.sp = 0xFF ∧ (cpu_reset bus12).cpu.status = 0x24 ∧
    (cpu_reset bus12).cpu.cycles = 0 ∧ (cpu_reset bus12).cpu.pc = 0x1212 := by
  obtain ⟨h1, h2, h3, h4, _⟩ := cpu_reset_spec bus12
  refine ⟨h1, h2, h3, ?_⟩
  rw [h4]
  decide

/-- Claim C1 counterexample.  On the constant-0x12 bus, the old core's
reset leaves sp = 0xFF, not 0xFD; and the new core's reset leaves
pc = 0, not the vector word 0x1212 read at 0xFFFC/0xFFFD.  So neither
core satisfies the claimed conjunction. -/
theorem cpu_reset_claim_cex :
    (cpu_reset bus12).cpu.sp = 0xFF ∧ ¬((cpu_reset bus12).cpu.sp = 0xFD) ∧
    read6502_word bus12 0xFFFC = 0x1212 ∧ ¬(cpu_reset_new.pc = 0x1212) := by
  refine ⟨rfl, by decide, by decide, by decide⟩

/-- Claim C6, amended.  In fake6502_old.c, `cpu_set_state` followed by
`cpu_get_state` returns exactly the supplied state, with no validation
of any field.  In fake6502.c the same round trip preserves every field
except `cycles`, which the `uint32_t` accessor interface truncates
modulo 2^32; it is exact whenever cycles < 2^32. -/
theorem snapshot_roundtrip (c : Core) (s : CpuState) :
    cpu_get_state (cpu_set_state c s) = s ∧
    cpu_get_state_new (cpu_set_state_new s) =
      { s with cycles := s.cycles % 4294967296 } ∧
    (s.cycles < 4294967296 → cpu_get_state_new (cpu_set_state_new s) = s) := by
  refine ⟨rfl, rfl, fun h => ?_⟩
  unfold cpu_get_state_new cpu_set_state_new
  have hc : s.cycles % 4294967296 = s.cycles := Nat.mod_eq_of_lt h
  cases s
  simp_all

/-- Claim C6 witness: the round trips at a state with bit5 = 0 in the
status register (unreachable by normal execution). -/
theorem snapshot_roundtrip_witness :
    cpu_get_state (cpu_set_state ldaCore0 oddState) = oddState ∧
    cpu_get_state_new (cpu_set_state_new oddState) = oddState :=
  ⟨(snapshot_roundtrip ldaCore0 oddState).1,
   (snapshot_roundtrip ldaCore0 oddState).2.2 (by decide)⟩

/-- Claim C6 counterexample: through the fake6502.c snapshot interface a
state whose cycles field is 2^32 does not survive the round trip — the
`uint32_t` accessors truncate it to 0. -/
theorem snapshot_claim_cex :
    cpu_get_state_new (cpu_set_state_new ⟨0, 0, 0, 0, 0, 0, 4294967296⟩) ≠
      ⟨0, 0, 0, 0, 0, 0, 4294967296⟩ := by
  decide

/-- Claim C10: `cpu_trigger_irq`, `cpu_trigger_nmi` and `cpu_clear_irq`
modify only their own latch — the architectural state, the other latch
and the bus are untouched, no bus access occurs, and the triggers are
idempotent. -/
theorem trigger_frame (c : Core) :
    (cpu_trigger_irq c).cpu = c.cpu ∧ (cpu_trigger_irq c).mem = c.mem ∧
    (cpu_trigger_irq c).nmi_pending = c.nmi_pending ∧
    (cpu_trigger_irq c).irq_pending = true ∧
    (cpu_trigger_nmi c).cpu = c.cpu ∧ (cpu_trigger_nmi c).mem = c.mem ∧
    (cpu_trigger_nmi c).irq_pending = c.irq_pending ∧
    (cpu_trigger_nmi c).nmi_pending = true ∧
    (cpu_clear_irq c).cpu = c.cpu ∧ (cpu_clear_irq c).mem = c.mem ∧
    (cpu_clear_irq c).nmi_pending = c.nmi_pending ∧
    (cpu_clear_irq c).irq_pending = false ∧
    cpu_trigger_irq (cpu_trigger_irq c) = cpu_trigger_irq c ∧
    cpu_trigger_nmi (cpu_trigger_nmi c) = cpu_trigger_nmi c :=
  ⟨rfl, rfl, rfl, rfl, rfl, rfl, rfl, rfl, rfl, rfl, rfl, rfl, rfl, rfl⟩

/-- Claim C10 witness: the frame conditions at a concrete core. -/
theorem trigger_frame_witness :
    (cpu_trigger_irq ldaCore0).irq_pending = true ∧
    (cpu_trigger_irq ldaCore0).cpu = ldaCore0.cpu ∧
    (cpu_trigger_irq ldaCore0).nmi_pending = ldaCore0.nmi_pending ∧
    cpu_trigger_nmi (cpu_trigger_nmi ldaCore0) = cpu_trigger_nmi ldaCore0 := by
  obtain ⟨h1, _, h3, h4, _, _, _, _, _, _, _, _, _, h14⟩ :=
    trigger_frame ldaCore0
  exact ⟨h4, h1, h3, h14⟩

/-- Claim C2, amended.  Hardware interrupt service in fake6502_old.c
pushes the PC high byte at 0x0100+sp, the PC low byte, and then the
status register UNMODIFIED — the Break flag is pushed as-is, not forced
clear — with sp decrementing (wrapping mod 256) on each push and no
other bus write; it then sets InterruptDisable, loads pc from the
vector (0xFFFA/0xFFFB for NMI, 0xFFFE/0xFFFF for IRQ), and returns
exactly 7 cycles. -/
theorem hw_interrupt_service :
    (∀ c : Core, c.cpu.sp < 256 → c.cpu.pc < 65536 → c.cpu.status < 256 →
      c.nmi_pending = true →
      (cpu_step c).2 = 7 ∧
      (cpu_step c).1.mem (0x0100 + c.cpu.sp) = c.cpu.pc / 256 ∧
      (cpu_step c).1.mem (0x0100 + (c.cpu.sp + 255) % 256) = c.cpu.pc % 256 ∧
      (cpu_step c).1.mem (0x0100 + (c.cpu.sp + 254) % 256) = c.cpu.status ∧
      (∀ a : Nat, a ≠ 0x0100 + c.cpu.sp →
        a ≠ 0x0100 + (c.cpu.sp + 255) % 256 →
        a ≠ 0x0100 + (c.cpu.sp + 254) % 256 → (cpu_step c).1.mem a = c.mem a) ∧
      (cpu_step c).1.cpu.sp = (c.cpu.sp + 253) % 256 ∧
      (cpu_step c).1.cpu.status = c.cpu.status ||| FLAG_INTERRUPT ∧
      (cpu_step c).1.cpu.pc = read6502_word c.mem 0xFFFA) ∧
    (∀ c : Core, c.cpu.sp < 256 → c.cpu.pc < 65536 → c.cpu.status < 256 →
      c.nmi_pending = false → c.irq_pending = true →
      c.cpu.status &&& FLAG_INTERRUPT = 0 →
      (cpu_step c).2 = 7 ∧
      (cpu_step c).1.mem (0x0100 + c.cpu.sp) = c.cpu.pc / 256 ∧
      (cpu_step c).1.mem (0x0100 + (c.cpu.sp + 255) % 256) = c.cpu.pc % 256 ∧
      (cpu_step c).1.mem (0x0100 + (c.cpu.sp + 254) % 256) = c.cpu.status ∧
      (∀ a : Nat, a ≠ 0x0100 + c.cpu.sp →
        a ≠ 0x0100 + (c.cpu.sp + 255) % 256 →
        a ≠ 0x0100 + (c.cpu.sp + 254) % 256 → (cpu_step c).1.mem a = c.mem a) ∧
      (cpu_step c).1.cpu.sp = (c.cpu.sp + 253) % 256 ∧
      (cpu_step c).1.cpu.status = c.cpu.status ||| FLAG_INTERRUPT ∧
      (cpu_step c).1.cpu.pc = read6502_word c.mem 0xFFFE) := by
  constructor
  · intro c h1 h2 h3 h4
    obtain ⟨f1, f2, f3, f4, f5, f6, f7, f8, _⟩ := nmi_service_facts c h1 h2 h3 h4
    exact ⟨f1, f2, f3, f4, f5, f6, f7, f8⟩
  · intro c h1 h2 h3 h4 h5 h6
    obtain ⟨f1, f2, f3, f4, f5, f6, f7, f8, _⟩ := irq_service_facts c h1 h2 h3 h4 h5 h6
    exact ⟨f1, f2, f3, f4, f5, f6, f7, f8⟩

/-- Claim C2 witness: NMI service from `nmiCore0` (pc 0x1234, sp 0xFF,
status 0x34) pushes 0x12, 0x34, 0x34 at 0x01FF..0x01FD and jumps to the
NMI vector 0x8000; IRQ service from `irqCore0` jumps to 0x9000. -/
theorem hw_interrupt_service_witness :
    (cpu_step nmiCore0).2 = 7 ∧
    (cpu_step nmiCore0).1.mem 0x01FF = 0x12 ∧
    (cpu_step nmiCore0).1.mem 0x01FE = 0x34 ∧
    (cpu_step nmiCore0).1.mem 0x01FD = 0x34 ∧
    (cpu_step nmiCore0).1.cpu.sp = 0xFC ∧
    (cpu_step nmiCore0).1.cpu.pc = 0x8000 ∧
    (cpu_step irqCore0).2 = 7 ∧
    (cpu_step irqCore0).1.cpu.pc = 0x9000 := by
  obtain ⟨f1, f2, f3, f4, _, f6, _, f8⟩ :=
    hw_interrupt_service.1 nmiCore0 (by decide) (by decide) (by decide) rfl
  obtain ⟨g1, _, _, _, _, _, _, g8⟩ :=
    hw_interrupt_service.2 irqCore0 (by decide) (by decide) (by decide) rfl rfl
      (by decide)
  refine ⟨f1, f2, f3, f4, f6, ?_, g1, ?_⟩
  · rw [f8]; decide
  · rw [g8]; decide

/-- Claim C2 counterexample: from `nmiCore0`, whose status register is
0x34 (Break flag set), NMI service pushes the status byte 0x34 — the
Break flag is NOT cleared in the pushed byte, contrary to the claim. -/
theorem hw_interrupt_service_cex :
    (cpu_step nmiCore0).1.mem 0x01FD = 0x34 ∧
    (0x34 : Nat) &&& FLAG_BREAK ≠ 0 := by
  decide

/-- Claim C3: when both latches are set, `step()` services the NMI
(pc loaded from 0xFFFA/0xFFFB, only the NMI latch cleared); while
InterruptDisable is set a pending IRQ survives any step that does not
service it; and once InterruptDisable is clear (and no NMI pends) a
step services the IRQ, clearing its latch and loading pc from
0xFFFE/0xFFFF for 7 cycles. -/
theorem interrupt_priority :
    (∀ c : Core, c.cpu.sp < 256 → c.cpu.pc < 65536 → c.cpu.status < 256 →
      c.nmi_pending = true → c.irq_pending = true →
      (cpu_step c).1.cpu.pc = read6502_word c.mem 0xFFFA ∧
      (cpu_step c).1.nmi_pending = false ∧
      (cpu_step c).1.irq_pending = true ∧ (cpu_step c).2 = 7) ∧
    (∀ c : Core, c.nmi_pending = false → c.irq_pending = true →
      c.cpu.status &&& FLAG_INTERRUPT ≠ 0 →
      (cpu_step c).1.irq_pending = true) ∧
    (∀ c : Core, c.cpu.sp < 256 → c.cpu.pc < 65536 → c.cpu.status < 256 →
      c.nmi_pending = false → c.irq_pending = true →
      c.cpu.status &&& FLAG_INTERRUPT = 0 →
      (cpu_step c).1.irq_pending = false ∧
      (cpu_step c).1.cpu.pc = read6502_word c.mem 0xFFFE ∧
      (cpu_step c).2 = 7) := by
  refine ⟨fun c h1 h2 h3 hn hi => ?_, fun c hn hi hI => ?_,
          fun c h1 h2 h3 hn hi hI => ?_⟩
  · obtain ⟨f1, _, _, _, _, _, _, f8, f9, f10, _⟩ :=
      nmi_service_facts c h1 h2 h3 hn
    exact ⟨f8, f9, f10.trans hi, f1⟩
  · have h := instr_path_facts c hn (by rintro ⟨_, hz⟩; exact hI hz)
    exact h.1.trans hi
  · obtain ⟨f1, _, _, _, _, _, _, f8, f9, _⟩ :=
      irq_service_facts c h1 h2 h3 hn hi hI
    exact ⟨f9, f8, f1⟩

/-- Claim C3 witness: from `nmiCore0` (both latches set) the NMI is
serviced and the IRQ stays latched; from `maskedIrqCore`
(InterruptDisable set) the IRQ latch survives the step; from
`irqCore0` (InterruptDisable clear) the IRQ is serviced. -/
theorem interrupt_priority_witness :
    (cpu_step nmiCore0).1.cpu.pc = 0x8000 ∧
    (cpu_step nmiCore0).1.nmi_pending = false ∧
    (cpu_step nmiCore0).1.irq_pending = true ∧
    (cpu_step maskedIrqCore).1.irq_pending = true ∧
    (cpu_step irqCore0).1.irq_pending = false ∧
    (cpu_step irqCore0).1.cpu.pc = 0x9000 ∧
    (cpu_step irqCore0).2 = 7 := by
  obtain ⟨f8, f9, f10, f1⟩ :=
    interrupt_priority.1 nmiCore0 (by decide) (by decide) (by decide) rfl rfl
  have g := interrupt_priority.2.1 maskedIrqCore rfl rfl (by decide)
  obtain ⟨k9, k8, k1⟩ :=
    interrupt_priority.2.2 irqCore0 (by decide) (by decide) (by decide) rfl rfl
      (by decide)
  refine ⟨?_, f9, f10, g, k9, ?_, k1⟩
  · rw [f8]; decide
  · rw [k8]; decide

/-- Claim C5: `cpu_step` is total; it returns exactly 7 when it
services an interrupt and a count in 2..8 when it executes an
instruction; any opcode outside the implemented set
{0x00, 0x4C, 0x6C, 0xA9, 0xEA, 0x40} executes as a silent 2-cycle
operation that only advances pc by one (no bus write, no register or
latch change). -/
theorem step_total :
    (∀ c : Core,
      (c.nmi_pending = true ∨
       (c.irq_pending = true ∧ c.cpu.status &&& FLAG_INTERRUPT = 0)) →
      (cpu_step c).2 = 7) ∧
    (∀ c : Core, stepsInstruction c →
      2 ≤ (cpu_step c).2 ∧ (cpu_step c).2 ≤ 8) ∧
    (∀ c : Core, stepsInstruction c →
      ¬read6502 c.mem c.cpu.pc ∈ [0x00, 0x4C, 0x6C, 0xA9, 0xEA, 0x40] →
      (cpu_step c).2 = 2 ∧
      (cpu_step c).1.cpu.pc = (c.cpu.pc + 1) % 65536 ∧
      (cpu_step c).1.mem = c.mem ∧
      (cpu_step c).1.cpu.a = c.cpu.a ∧ (cpu_step c).1.cpu.x = c.cpu.x ∧
      (cpu_step c).1.cpu.y = c.cpu.y ∧ (cpu_step c).1.cpu.sp = c.cpu.sp ∧
      (cpu_step c).1.cpu.status = c.cpu.status ∧
      (cpu_step c).1.irq_pending = c.irq_pending ∧
      (cpu_step c).1.nmi_pending = c.nmi_pending) := by
  refine ⟨fun c h => ?_, fun c h => ?_, fun c h hop => ?_⟩
  · unfold cpu_step
    by_cases hb : c.nmi_pending = true
    · rw [if_pos hb]
    · rcases h with h | h
      · exact absurd h hb
      · rw [if_neg hb, if_pos h]
  · exact ⟨(instr_path_facts c h.1 h.2).2.2.1, (instr_path_facts c h.1 h.2).2.2.2⟩
  · obtain ⟨f1, f2, f3, f4, f5, f6, f7, f8, f9, f10, _⟩ :=
      unknown_opcode_facts c h.1 h.2 hop
    exact ⟨f1, f2, f3, f4, f5, f6, f7, f8, f9, f10⟩

/-- Claim C5 witness: interrupt service from `nmiCore0` returns 7; the
`LDA` step from `ldaCore0` returns a count in 2..8; the unimplemented
opcode 0x02 at `unkCore` returns 2 and only advances pc. -/
theorem step_total_witness :
    (cpu_step nmiCore0).2 = 7 ∧
    2 ≤ (cpu_step ldaCore0).2 ∧ (cpu_step ldaCore0).2 ≤ 8 ∧
    (cpu_step unkCore).2 = 2 ∧
    (cpu_step unkCore).1.cpu.pc = 0x0301 ∧
    (cpu_step unkCore).1.mem = unkCore.mem ∧
    (cpu_step unkCore).1.cpu.a = 9 ∧
    (cpu_step unkCore).1.cpu.status = 0xA5 := by
  have h1 := step_total.1 nmiCore0 (Or.inl rfl)
  have h2 := step_total.2.1 ldaCore0 (by decide)
  obtain ⟨g1, g2, g3, g4, _, _, _, g8, _⟩ :=
    step_total.2.2 unkCore (by decide) (by decide)
  exact ⟨h1, h2.1, h2.2, g1, g2, g3, g4, g8⟩

/-- Claim C4: indirect JMP through a pointer ending in 0xFF reads its
high byte from the start of the SAME page (0xnn00, the 6502 page-wrap
bug), while a pointer not ending in 0xFF reads the high byte from the
next sequential address; either way `step()` returns 5 cycles. -/
theorem jmp_indirect_pagewrap (c : Core) (hs : stepsInstruction c)
    (hop : read6502 c.mem c.cpu.pc = 0x6C)
    (ptr : Nat) (hptr : ptr = read6502_word c.mem ((c.cpu.pc + 1) % 65536)) :
    (ptr % 256 = 0xFF →
      (cpu_step c).1.cpu.pc =
        read6502 c.mem ptr + 256 * read6502 c.mem (ptr / 256 * 256)) ∧
    (ptr % 256 ≠ 0xFF →
      (cpu_step c).1.cpu.pc =
        read6502 c.mem ptr + 256 * read6502 c.mem (ptr + 1)) ∧
    (cpu_step c).2 = 5 := by
  have hptrlt : ptr < 65536 := hptr ▸ read6502_word_lt c.mem _
  unfold cpu_step
  rw [if_neg (by simp [hs.1]), if_neg hs.2]
  simp only [hop]
  rw [if_neg (by decide : ¬((108 : Nat) = 0)),
      if_neg (by decide : ¬((108 : Nat) = 76)),
      if_pos trivial]
  rw [← hptr]
  refine ⟨fun hff => ?_, fun hnff => ?_, ?_⟩
  · rw [if_pos (show ptr &&& 255 = 255 by rw [and_255]; exact hff)]
    simp only []
    rw [and_ff00_eq ptr hptrlt, lor_shift_eq_add _ _ (read6502_lt _ _)]
    omega
  · rw [if_neg (show ¬(ptr &&& 255 = 255) by rw [and_255]; exact hnff)]
    simp only []
    rw [read6502_word_eq]
    omega
  · split <;> rfl

/-- Claim C4 witness: `JMP ($02FF)` over `jmpIndBus` lands on
0x1234 = lo 0x34 from 0x02FF, hi 0x12 from 0x0200 (not 0x77 from
0x0300); `JMP ($0280)` reads the high byte from 0x0281.  Both return
5 cycles. -/
theorem jmp_indirect_pagewrap_witness :
    (cpu_step jmpIndCore).1.cpu.pc = 0x1234 ∧ (cpu_step jmpIndCore).2 = 5 ∧
    (cpu_step jmpIndCore2).1.cpu.pc = 0x1234 ∧ (cpu_step jmpIndCore2).2 = 5 := by
  obtain ⟨hf, _, h5⟩ := jmp_indirect_pagewrap jmpIndCore (by decide) (by decide)
    0x02FF (by decide)
  obtain ⟨_, hg, g5⟩ := jmp_indirect_pagewrap jmpIndCore2 (by decide) (by decide)
    0x0280 (by decide)
  refine ⟨?_, h5, ?_, g5⟩
  · rw [hf (by decide)]; decide
  · rw [hg (by decide)]; decide

/-- Claim C7: LDA immediate (the load operation of the core) loads the
operand byte into `a` in 2 cycles, advancing pc by 2; after it, the
Zero flag is set iff the loaded byte is 0, the Negative flag is set iff
bit 7 of the loaded byte is 1, and no other flag (mask 0x7D) changes;
nothing else — bus, sp, x, y, latches — changes. -/
theorem lda_flags (c : Core) (hs : stepsInstruction c)
    (hop : read6502 c.mem c.cpu.pc = 0xA9)
    (v : Nat) (hv : v = read6502 c.mem ((c.cpu.pc + 1) % 65536)) :
    (cpu_step c).2 = 2 ∧
    (cpu_step c).1.cpu.a = v ∧
    (cpu_step c).1.cpu.pc = (c.cpu.pc + 2) % 65536 ∧
    ((cpu_step c).1.cpu.status &&& FLAG_ZERO ≠ 0 ↔ v = 0) ∧
    ((cpu_step c).1.cpu.status &&& FLAG_SIGN ≠ 0 ↔ v.testBit 7 = true) ∧
    (cpu_step c).1.cpu.status &&& 0x7D = c.cpu.status &&& 0x7D ∧
    (cpu_step c).1.mem = c.mem ∧
    (cpu_step c).1.cpu.sp = c.cpu.sp ∧ (cpu_step c).1.cpu.x = c.cpu.x ∧
    (cpu_step c).1.cpu.y = c.cpu.y ∧
    (cpu_step c).1.irq_pending = c.irq_pending ∧
    (cpu_step c).1.nmi_pending = c.nmi_pending := by
  unfold cpu_step
  rw [if_neg (by simp [hs.1]), if_neg hs.2]
  simp only [hop]
  rw [if_neg (by decide : ¬((169 : Nat) = 0)),
      if_neg (by decide : ¬((169 : Nat) = 76)),
      if_neg (by decide : ¬((169 : Nat) = 108)),
      if_pos trivial]
  rw [← hv]
  by_cases hz : v = 0
  · have h7 : ¬(v &&& 128 ≠ 0) := by rw [hz]; decide
    rw [if_pos hz, if_neg h7]
    refine ⟨rfl, rfl, by dsimp only; omega, ?_, ?_, ?_, rfl, rfl, rfl, rfl,
            rfl, rfl⟩
    · simp [mask_or_mask, FLAG_ZERO, FLAG_SIGN, hz, land_lit_1, land_lit_2,
            land_lit_3, land_lit_4, land_lit_5, land_lit_6, land_lit_7,
            land_lit_8, land_lit_9]
    · simp [mask_or_mask, FLAG_ZERO, FLAG_SIGN, hz, land_lit_1, land_lit_2,
            land_lit_3, land_lit_4, land_lit_5, land_lit_6, land_lit_7,
            land_lit_8, land_lit_9]
    · simp [mask_or_mask, FLAG_ZERO, land_lit_1, land_lit_2, land_lit_3,
            land_lit_4, land_lit_5, land_lit_6, land_lit_7, land_lit_8,
            land_lit_9]
  · rw [if_neg hz]
    by_cases h7 : v &&& 128 ≠ 0
    · rw [if_pos h7]
      have ht : v.testBit 7 = true := (and_128_testBit v).mp h7
      refine ⟨rfl, rfl, by dsimp only; omega, ?_, ?_, ?_, rfl, rfl, rfl, rfl,
              rfl, rfl⟩
      · simp [mask_or_mask, FLAG_ZERO, FLAG_SIGN, hz, land_lit_1, land_lit_2,
              land_lit_3, land_lit_4, land_lit_5, land_lit_6, land_lit_7,
              land_lit_8, land_lit_9]
      · simp [mask_or_mask, FLAG_ZERO, FLAG_SIGN, ht, land_lit_1, land_lit_2,
              land_lit_3, land_lit_4, land_lit_5, land_lit_6, land_lit_7,
              land_lit_8, land_lit_9]
      · simp [mask_or_mask, FLAG_SIGN, land_lit_1, land_lit_2, land_lit_3,
              land_lit_4, land_lit_5, land_lit_6, land_lit_7, land_lit_8,
              land_lit_9]
    · rw [if_neg h7]
      have ht : v.testBit 7 = false := by
        cases hb : v.testBit 7
        · rfl
        · exact absurd ((and_128_testBit v).mpr hb) h7
      refine ⟨rfl, rfl, by dsimp only; omega, ?_, ?_, ?_, rfl, rfl, rfl, rfl,
              rfl, rfl⟩
      · simp [Nat.and_assoc, FLAG_ZERO, hz, land_lit_1, land_lit_2,
              land_lit_3, land_lit_4, land_lit_5, land_lit_6, land_lit_7,
              land_lit_8, land_lit_9]
      · simp [Nat.and_assoc, FLAG_SIGN, ht, land_lit_1, land_lit_2,
              land_lit_3, land_lit_4, land_lit_5, land_lit_6, land_lit_7,
              land_lit_8, land_lit_9]
      · exact land_land _ _

/-- Claim C7 witness — the spec's end-to-end scenario: `LDA #$42` at
0x0200 returns 2 cycles, loads a = 0x42, leaves pc = 0x0202, Z clear,
N clear, and the other flags (0x24) untouched. -/
theorem lda_flags_witness :
    (cpu_step ldaCore0).2 = 2 ∧
    (cpu_step ldaCore0).1.cpu.a = 0x42 ∧
    (cpu_step ldaCore0).1.cpu.pc = 0x0202 ∧
    ¬((cpu_step ldaCore0).1.cpu.status &&& FLAG_ZERO ≠ 0) ∧
    ¬((cpu_step ldaCore0).1.cpu.status &&& FLAG_SIGN ≠ 0) ∧
    (cpu_step ldaCore0).1.cpu.status &&& 0x7D = 0x24 := by
  obtain ⟨h1, h2, h3, h4, h5, h6, _⟩ :=
    lda_flags ldaCore0 (by decide) (by decide) 0x42 (by decide)
  refine ⟨h1, h2, ?_, ?_, ?_, ?_⟩
  · rw [h3]; decide
  · rw [h4]; decide
  · rw [h5]; decide
  · rw [h6]; decide

/-- Claim C8, amended.  `step()` returns the documented cost for each
implemented representative instruction — LDA immediate 2, BRK 7, RTI 6,
JMP absolute 3, JMP indirect 5 — but `LDA absolute` (0xAD) and
`LDA absolute,X` (0xBD) are NOT implemented: they fall into the default
case and return 2, not the documented 4/4-or-5. -/
theorem cycle_costs (c : Core) (hs : stepsInstruction c) :
    (read6502 c.mem c.cpu.pc = 0xA9 → (cpu_step c).2 = 2) ∧
    (read6502 c.mem c.cpu.pc = 0x00 → (cpu_step c).2 = 7) ∧
    (read6502 c.mem c.cpu.pc = 0x40 → (cpu_step c).2 = 6) ∧
    (read6502 c.mem c.cpu.pc = 0x4C → (cpu_step c).2 = 3) ∧
    (read6502 c.mem c.cpu.pc = 0x6C → (cpu_step c).2 = 5) ∧
    (read6502 c.mem c.cpu.pc = 0xAD → (cpu_step c).2 = 2) ∧
    (read6502 c.mem c.cpu.pc = 0xBD → (cpu_step c).2 = 2) := by
  refine ⟨fun hop => ?_, fun hop => ?_, fun hop => ?_, fun hop => ?_,
          fun hop => ?_, fun hop => ?_, fun hop => ?_⟩
  all_goals
    unfold cpu_step
    rw [if_neg (by simp [hs.1]), if_neg hs.2]
    simp only [hop]
  · rw [if_neg (by decide : ¬((169 : Nat) = 0)),
        if_neg (by decide : ¬((169 : Nat) = 76)),
        if_neg (by decide : ¬((169 : Nat) = 108)), if_pos trivial]
  · rw [if_pos trivial]
  · rw [if_neg (by decide : ¬((64 : Nat) = 0)),
        if_neg (by decide : ¬((64 : Nat) = 76)),
        if_neg (by decide : ¬((64 : Nat) = 108)),
        if_neg (by decide : ¬((64 : Nat) = 169)),
        if_neg (by decide : ¬((64 : Nat) = 234)), if_pos trivial]
  · rw [if_neg (by decide : ¬((76 : Nat) = 0)), if_pos trivial]
  · rw [if_neg (by decide : ¬((108 : Nat) = 0)),
        if_neg (by decide : ¬((108 : Nat) = 76)), if_pos trivial]
    split <;> rfl
  · rw [if_neg (by decide : ¬((173 : Nat) = 0)),
        if_neg (by decide : ¬((173 : Nat) = 76)),
        if_neg (by decide : ¬((173 : Nat) = 108)),
        if_neg (by decide : ¬((173 : Nat) = 169)),
        if_neg (by decide : ¬((173 : Nat) = 234)),
        if_neg (by decide : ¬((173 : Nat) = 64))]
  · rw [if_neg (by decide : ¬((189 : Nat) = 0)),
        if_neg (by decide : ¬((189 : Nat) = 76)),
        if_neg (by decide : ¬((189 : Nat) = 108)),
        if_neg (by decide : ¬((189 : Nat) = 169)),
        if_neg (by decide : ¬((189 : Nat) = 234)),
        if_neg (by decide : ¬((189 : Nat) = 64))]

/-- Claim C8 witness: the documented costs at concrete cores — LDA #imm
2, BRK 7, RTI 6, JMP absolute 3, JMP indirect 5 — and the 2-cycle
fallback for the unimplemented 0xAD/0xBD. -/
theorem cycle_costs_witness :
    (cpu_step ldaCore0).2 = 2 ∧ (cpu_step brkCore).2 = 7 ∧
    (cpu_step rtiCore).2 = 6 ∧ (cpu_step jmpAbsCore).2 = 3 ∧
    (cpu_step jmpIndCore).2 = 5 ∧ (cpu_step absLdaCore).2 = 2 ∧
    (cpu_step absXCore).2 = 2 :=
  ⟨(cycle_costs ldaCore0 (by decide)).1 (by decide),
   (cycle_costs brkCore (by decide)).2.1 (by decide),
   (cycle_costs rtiCore (by decide)).2.2.1 (by decide),
   (cycle_costs jmpAbsCore (by decide)).2.2.2.1 (by decide),
   (cycle_costs jmpIndCore (by decide)).2.2.2.2.1 (by decide),
   (cycle_costs absLdaCore (by decide)).2.2.2.2.2.1 (by decide),
   (cycle_costs absXCore (by decide)).2.2.2.2.2.2 (by decide)⟩

/-- Claim C8 counterexample: `LDA absolute` (opcode 0xAD) is not an
implemented instruction; from `absLdaCore` step() returns 2 cycles,
not the documented 4. -/
theorem cycle_costs_cex :
    (cpu_step absLdaCore).2 = 2 ∧ ¬((cpu_step absLdaCore).2 = 4) := by
  decide

/-- Claim C9, amended.  Bit 5 is NOT forced to 1 by instruction logic:
`cpu_reset` sets it (status 0x24); interrupt service and every
instruction except RTI PRESERVE the incoming bit 5 (flag writes use
masks that leave bit 5 alone); RTI replaces the whole status register —
bit 5 included — with the byte pulled from the stack.  Consequently a
state whose status has bit 5 = 0 (installable via set_state) keeps
bit 5 = 0 across instructions, so bit 5 does not read as 1 after every
instruction. -/
theorem bit5_behavior :
    (∀ mem : Nat → Nat,
      (cpu_reset mem).cpu.status &&& FLAG_CONSTANT = FLAG_CONSTANT) ∧
    (∀ c : Core,
      (c.nmi_pending = true ∨
       (c.irq_pending = true ∧ c.cpu.status &&& FLAG_INTERRUPT = 0)) →
      (cpu_step c).1.cpu.status &&& FLAG_CONSTANT =
        c.cpu.status &&& FLAG_CONSTANT) ∧
    (∀ c : Core, stepsInstruction c → read6502 c.mem c.cpu.pc ≠ 0x40 →
      (cpu_step c).1.cpu.status &&& FLAG_CONSTANT =
        c.cpu.status &&& FLAG_CONSTANT) ∧
    (∀ c : Core, stepsInstruction c → read6502 c.mem c.cpu.pc = 0x40 →
      (cpu_step c).1.cpu.status =
        read6502 c.mem (0x0100 + (c.cpu.sp + 1) % 256)) := by
  refine ⟨fun mem => ?_, fun c h => ?_, fun c hs hne => ?_,
          fun c hs hop => ?_⟩
  · show (FLAG_CONSTANT ||| FLAG_INTERRUPT) &&& FLAG_CONSTANT = FLAG_CONSTANT
    decide
  · unfold cpu_step
    by_cases hn : c.nmi_pending = true
    · rw [if_pos hn]
      simp only [push6502]
      exact land_or_right _ _ _ (by decide)
    · rcases h with h | h
      · exact absurd h hn
      · rw [if_neg hn, if_pos h]
        simp only [push6502]
        exact land_or_right _ _ _ (by decide)
  · exact bit5_preserved_instr c hs hne
  · unfold cpu_step
    rw [if_neg (by simp [hs.1]), if_neg hs.2]
    simp only [hop, pull6502]
    rw [if_neg (by decide : ¬((64 : Nat) = 0)),
        if_neg (by decide : ¬((64 : Nat) = 76)),
        if_neg (by decide : ¬((64 : Nat) = 108)),
        if_neg (by decide : ¬((64 : Nat) = 169)),
        if_neg (by decide : ¬((64 : Nat) = 234)), if_pos trivial]

/-- Claim C9 witness: reset leaves bit 5 set; NMI service from
`nmiCore0` and `LDA` from `ldaCore0` preserve bit 5; RTI from
`rtiCore` (stack byte 0) loads status 0, clearing bit 5. -/
theorem bit5_behavior_witness :
    (cpu_reset bus12).cpu.status &&& FLAG_CONSTANT = FLAG_CONSTANT ∧
    (cpu_step nmiCore0).1.cpu.status &&& FLAG_CONSTANT =
      (0x34 : Nat) &&& FLAG_CONSTANT ∧
    (cpu_step ldaCore0).1.cpu.status &&& FLAG_CONSTANT =
      (0x24 : Nat) &&& FLAG_CONSTANT ∧
    (cpu_step rtiCore).1.cpu.status = 0 := by
  refine ⟨bit5_behavior.1 bus12, bit5_behavior.2.1 nmiCore0 (Or.inl rfl),
          bit5_behavior.2.2.1 ldaCore0 (by decide) (by decide), ?_⟩
  rw [bit5_behavior.2.2.2 rtiCore (by decide) (by decide)]
  decide

/-- Claim C9 counterexample: from `ldaZeroStatusCore` (status 0x00,
installed via set_state) executing `LDA #$42` leaves status 0x00 —
bit 5 reads as 0 after the instruction, contrary to the claim that it
reads as 1 after every instruction. -/
theorem bit5_claim_cex :
    (cpu_step ldaZeroStatusCore).1.cpu.status = 0 ∧
    Nat.testBit (cpu_step ldaZeroStatusCore).1.cpu.status 5 = false := by
  decide

end Fake6502
